import Mathlib

/-!
Shallow embedding of the QueryQuest block-builder core: the block-connection
grammar, the category resolver, the SQL renderer, the completeness checker
and the canvas mutation operations, translated from
`src/frontend/block-builder/sql-generator.js`, `src/frontend/block-builder/utils.js`,
`src/frontend/block-builder/drag-drop.js`, the shared config tables, the canvas
manager, and the legacy monolithic `src/frontend/block-builder.js`.

JavaScript objects `{type, value}` used as SQL parts become the `SQLPart`
inductive; the builder's `blocks` array becomes `List Block`; map lookups
(`BLOCK_CATEGORIES[t] || 'UNKNOWN'`) become `List.find?` over association
lists with an explicit default.
-/

namespace QueryQuest

/-- The `VALID_CONNECTIONS` table of `config.js`: for each position category,
the list of categories (or literal type strings) legally placeable next. -/
def VALID_CONNECTIONS : List (String × List String) := [
  ("START", ["SELECT"]),
  ("SELECT", ["DISTINCT", "ALL", "COLUMN", "FUNCTION"]),
  ("DISTINCT", ["COLUMN", "FUNCTION"]),
  ("ALL", ["COLUMN", "FUNCTION"]),
  ("COLUMN", ["COLUMN", "FROM", "COMMA", "FUNCTION"]),
  ("FUNCTION", ["COLUMN", "FROM", "COMMA", "FUNCTION"]),
  ("COMMA", ["COLUMN", "FUNCTION"]),
  ("FROM", ["TABLE"]),
  ("TABLE", ["WHERE", "JOIN", "GROUP BY", "ORDER BY", "LIMIT", "END"]),
  ("JOIN", ["TABLE"]),
  ("ON", ["COLUMN"]),
  ("WHERE", ["COLUMN", "FUNCTION"]),
  ("CONDITION_COLUMN", ["OPERATOR"]),
  ("OPERATOR", ["VALUE", "COLUMN"]),
  ("VALUE", ["AND", "OR", "GROUP BY", "ORDER BY", "LIMIT", "END"]),
  ("AND", ["COLUMN"]),
  ("OR", ["COLUMN"]),
  ("GROUP BY", ["COLUMN"]),
  ("GROUP_COLUMN", ["COLUMN", "ORDER BY", "LIMIT", "END", "COMMA"]),
  ("ORDER BY", ["COLUMN"]),
  ("ORDER_COLUMN", ["ASC", "DESC", "COLUMN", "LIMIT", "END", "COMMA"]),
  ("ASC", ["COLUMN", "LIMIT", "END", "COMMA"]),
  ("DESC", ["COLUMN", "LIMIT", "END", "COMMA"]),
  ("LIMIT", ["NUMBER"]),
  ("NUMBER", ["END"])]

/-- The `BLOCK_CATEGORIES` table of `config.js`: block type → category. -/
def BLOCK_CATEGORIES : List (String × String) := [
  ("SELECT", "SELECT"),
  ("DISTINCT", "DISTINCT"),
  ("FROM", "FROM"),
  ("WHERE", "WHERE"),
  ("JOIN", "JOIN"),
  ("ON", "ON"),
  ("GROUP BY", "GROUP BY"),
  ("ORDER BY", "ORDER BY"),
  ("LIMIT", "LIMIT"),
  ("AND", "AND"),
  ("OR", "OR"),
  ("ASC", "ASC"),
  ("DESC", "DESC"),
  ("=", "OPERATOR"),
  ("!=", "OPERATOR"),
  (">", "OPERATOR"),
  ("<", "OPERATOR"),
  (">=", "OPERATOR"),
  ("<=", "OPERATOR"),
  ("LIKE", "OPERATOR"),
  ("IN", "OPERATOR"),
  ("COUNT()", "FUNCTION"),
  ("SUM()", "FUNCTION"),
  ("AVG()", "FUNCTION"),
  ("MIN()", "FUNCTION"),
  ("MAX()", "FUNCTION"),
  ("employees", "TABLE"),
  ("departments", "TABLE"),
  ("*", "COLUMN"),
  ("id", "COLUMN"),
  ("name", "COLUMN"),
  ("department", "COLUMN"),
  ("salary", "COLUMN"),
  ("hire_date", "COLUMN"),
  ("location", "COLUMN"),
  ("number", "VALUE"),
  ("text", "VALUE")]

/-- The `NEW_LINE_KEYWORDS` list of `config.js`. -/
def NEW_LINE_KEYWORDS : List String :=
  ["FROM", "WHERE", "JOIN", "ON", "GROUP BY", "ORDER BY", "LIMIT", "AND", "OR"]

/-- The `SQL_KEYWORDS` list of `config.js`, used for context detection. -/
def SQL_KEYWORDS : List String :=
  ["SELECT", "FROM", "WHERE", "JOIN", "ON", "GROUP BY", "ORDER BY", "LIMIT", "AND", "OR"]

/-- The lookup `BLOCK_CATEGORIES[blockType] || 'UNKNOWN'` of
`utils.js: getBlockCategory`. -/
def getBlockCategory (blockType : String) : String :=
  match BLOCK_CATEGORIES.find? (fun p => p.1 == blockType) with
  | some p => p.2
  | none => "UNKNOWN"

/-- The predicate `utils.js: isFunction`. -/
def isFunction (blockType : String) : Bool :=
  getBlockCategory blockType == "FUNCTION"

/-- The predicate `utils.js: isColumn`. -/
def isColumn (blockType : String) : Bool :=
  getBlockCategory blockType == "COLUMN"

/-- Remove the first occurrence of the two-character substring `()`, as the
JavaScript `functionType.replace('()', '')` does (a string-pattern `replace`
rewrites only the first match). -/
def removeFirstParens : List Char → List Char
  | '(' :: ')' :: rest => rest
  | c :: rest => c :: removeFirstParens rest
  | [] => []

/-- The helper `utils.js: extractFunctionName`, e.g. `COUNT()` ↦ `COUNT`. -/
def extractFunctionName (functionType : String) : String :=
  String.mk (removeFirstParens functionType.data)

/-- One entry of the builder's `blocks` array. The DOM element is abstracted
to the one datum the core reads from it: the literal input's current string
(`element.querySelector('.block-input').value`), kept in `value` and `""`
when unset. `params` is the function block's bound-parameter array. -/
structure Block where
  id : Nat
  type : String
  params : List String
  value : String
deriving DecidableEq, Repr

/-- An SQL part as pushed by `collectParts`: either a plain string token or
the comma marker object `{type: 'COMMA', value: ','}`. -/
inductive SQLPart where
  | token (s : String)
  | comma
deriving DecidableEq, Repr

namespace SQLGenerator

/-- `sql-generator.js: needsAutoComma` — an implicit comma goes before the
current block when the previous block exists, both are COLUMN/FUNCTION
category, and the previous block is not itself a comma block. -/
def needsAutoComma (block : Block) (prevBlock : Option Block) : Bool :=
  match prevBlock with
  | none => false
  | some prev =>
    let currentCategory := getBlockCategory block.type
    let prevCategory := getBlockCategory prev.type
    let isCurrentColumnOrFunction := currentCategory == "COLUMN" || currentCategory == "FUNCTION"
    let isPrevColumnOrFunction := prevCategory == "COLUMN" || prevCategory == "FUNCTION"
    let prevIsNotComma := prev.type != ","
    isCurrentColumnOrFunction && isPrevColumnOrFunction && prevIsNotComma

/-- `sql-generator.js: processNumberBlock` — the input's value, or `?`. -/
def processNumberBlock (value : String) : String :=
  if value == "" then "?" else value

/-- `sql-generator.js: processTextBlock` — the input's value single-quoted
unless already quoted, or `'?'` when unset. -/
def processTextBlock (value : String) : String :=
  if value == "" then "'?'"
  else if !(value.startsWith "'") && !(value.startsWith "\"") then
    "'" ++ value ++ "'"
  else value

/-- `sql-generator.js: processFunctionBlock` — function name with bound
parameters joined inside parentheses, empty parentheses when none. -/
def processFunctionBlock (type : String) (params : List String) : String :=
  let functionName := extractFunctionName type
  if params.length > 0 then
    functionName ++ "(" ++ String.intercalate ", " params ++ ")"
  else
    functionName ++ "()"

/-- `sql-generator.js: processBlock` — dispatch on the block type. -/
def processBlock (block : Block) : SQLPart :=
  if block.type == "number" then
    SQLPart.token (processNumberBlock block.value)
  else if block.type == "text" then
    SQLPart.token (processTextBlock block.value)
  else if block.type == "," then
    SQLPart.comma
  else if isFunction block.type then
    SQLPart.token (processFunctionBlock block.type block.params)
  else
    SQLPart.token block.type

/-- Loop body of `sql-generator.js: collectParts`, carrying the previous
block (`blocks[index - 1]`, `none` at index 0). -/
def collectPartsAux (prevBlock : Option Block) : List Block → List SQLPart
  | [] => []
  | b :: rest =>
    (if needsAutoComma b prevBlock then [SQLPart.comma] else []) ++
      processBlock b :: collectPartsAux (some b) rest

/-- `sql-generator.js: collectParts`. -/
def collectParts (blocks : List Block) : List SQLPart :=
  collectPartsAux none blocks

/-- `sql-generator.js: formatPart` — joining rule for one part given the
previous part and the running index. -/
def formatPart (part : SQLPart) (prevPart : Option SQLPart) (index : Nat) : String :=
  match part with
  | SQLPart.comma => ","
  | SQLPart.token s =>
    let needsNewLine := NEW_LINE_KEYWORDS.contains s
    let prevWasComma := prevPart == some SQLPart.comma
    let prevIsOpenParen := prevPart == some (SQLPart.token "(")
    let needsSpace := decide (index > 0) && !(s == "(" || s == ")") &&
      !prevIsOpenParen && !prevWasComma
    if needsNewLine && decide (index > 0) then "\n" ++ s
    else if prevWasComma then " " ++ s
    else if needsSpace then " " ++ s
    else s

/-- Loop of `sql-generator.js: formatSQL`, threading previous part and index. -/
def formatSQLAux (prevPart : Option SQLPart) (index : Nat) : List SQLPart → String
  | [] => ""
  | p :: rest => formatPart p prevPart index ++ formatSQLAux (some p) (index + 1) rest

/-- `sql-generator.js: formatSQL`, with the empty-output placeholder. -/
def formatSQL (parts : List SQLPart) : String :=
  let sql := formatSQLAux none 0 parts
  if sql == "" then "-- Your query will appear here" else sql

/-- `sql-generator.js: generate` — the rendered SQL of the block sequence. -/
def generate (blocks : List Block) : String :=
  if blocks.length == 0 then "-- Your query will appear here"
  else formatSQL (collectParts blocks)

/-- `sql-generator.js: isQueryComplete`. -/
def isQueryComplete (blocks : List Block) : Bool :=
  if blocks.length == 0 then false
  else
    let hasSelect := blocks.any (fun b => b.type == "SELECT")
    let hasFrom := blocks.any (fun b => b.type == "FROM")
    let hasTable := blocks.any (fun b => getBlockCategory b.type == "TABLE")
    let hasColumn := blocks.any (fun b =>
      getBlockCategory b.type == "COLUMN" || getBlockCategory b.type == "FUNCTION")
    hasSelect && hasFrom && hasTable && hasColumn

/-- `sql-generator.js: findLastKeyword` — the backward loop from the end of
the array, returning the nearest block type that is an SQL keyword. -/
def findLastKeyword (blocks : List Block) : Option String :=
  (blocks.reverse.find? (fun b => SQL_KEYWORDS.contains b.type)).map Block.type

/-- `sql-generator.js: getLastBlockCategory` — the contextual category of the
last placed block (`START` for the empty sequence). -/
def getLastBlockCategory (blocks : List Block) : String :=
  match blocks.getLast? with
  | none => "START"
  | some lastBlock =>
    let category := getBlockCategory lastBlock.type
    if category == "COLUMN" then
      let prevBlocks := blocks.dropLast
      let lastKeyword := findLastKeyword prevBlocks
      if lastKeyword == some "WHERE" || lastKeyword == some "AND" || lastKeyword == some "OR" then
        "CONDITION_COLUMN"
      else if lastKeyword == some "GROUP BY" then "GROUP_COLUMN"
      else if lastKeyword == some "ORDER BY" then "ORDER_COLUMN"
      else category
    else if category == "VALUE" then "VALUE"
    else category

/-- The lookup `VALID_CONNECTIONS[lastCategory] || []` of
`sql-generator.js: canConnect`. -/
def validNext (lastCategory : String) : List String :=
  match VALID_CONNECTIONS.find? (fun p => p.1 == lastCategory) with
  | some p => p.2
  | none => []

/-- `sql-generator.js: canConnect` — legality of placing `newBlockType` after
the current sequence. -/
def canConnect (blocks : List Block) (newBlockType : String) : Bool :=
  let lastCategory := getLastBlockCategory blocks
  let newCategory := getBlockCategory newBlockType
  let vn := validNext lastCategory
  if vn.contains newCategory || vn.contains newBlockType then true
  else if newBlockType == "," || newCategory == "COMMA" then
    ["COLUMN", "FUNCTION", "GROUP_COLUMN", "ORDER_COLUMN"].contains lastCategory
  else false

end SQLGenerator

namespace CanvasManager

/-- State effect of `canvas.js: addParameterToSlot` on `builder.blocks`: the
first block whose id matches (`blocks.find(b => b.id === parentBlockId)`)
gets its `params` array replaced. -/
def setParamsOfBlock (parentBlockId : Nat) (ps : List String) : List Block → List Block
  | [] => []
  | b :: rest =>
    if b.id == parentBlockId then { b with params := ps } :: rest
    else b :: setParamsOfBlock parentBlockId ps rest

/-- `canvas.js: addParameterToSlot` — sets `parentBlock.params = [data.type]`
(DOM slot repainting dropped; the slot's `empty`/`filled` class flips are
mirrored by `params` becoming nonempty). -/
def addParameterToSlot (blocks : List Block) (dataType : String) (parentBlockId : Nat) :
    List Block :=
  setParamsOfBlock parentBlockId [dataType] blocks

/-- `canvas.js: removeBlockAndAfter` — `findIndex` on the id, no change when
absent, else `blocks.slice(0, index)`. -/
def removeBlockAndAfter (blocks : List Block) (blockId : Nat) : List Block :=
  match blocks.findIdx? (fun b => b.id == blockId) with
  | none => blocks
  | some index => blocks.take index

end CanvasManager

namespace DragDropManager

/-- `drag-drop.js: handleParamSlotDrop` — the guarded parameter-bind request.
`slotEmpty` abstracts `slotEl.classList.contains('empty')`; the class is
added exactly when the slot holds no parameter block. -/
def handleParamSlotDrop (blocks : List Block) (slotEmpty : Bool) (dataType : String)
    (parentBlockId : Nat) : List Block :=
  if isColumn dataType && slotEmpty then
    CanvasManager.addParameterToSlot blocks dataType parentBlockId
  else blocks

end DragDropManager

/-!
The legacy monolithic implementation, `src/frontend/block-builder.js`
(class `SQLBlockBuilder`): its own copies of the connection and category
tables and of the category/legality/generation/completeness logic.
-/

namespace SQLBlockBuilder

/-- `this.validConnections` of the legacy `block-builder.js` constructor. -/
def validConnections : List (String × List String) := [
  ("START", ["SELECT"]),
  ("SELECT", ["DISTINCT", "ALL", "COLUMN", "FUNCTION"]),
  ("DISTINCT", ["COLUMN", "FUNCTION"]),
  ("ALL", ["COLUMN", "FUNCTION"]),
  ("COLUMN", ["COLUMN", "FROM", "COMMA", "FUNCTION"]),
  ("FUNCTION", ["COLUMN", "FROM", "COMMA", "FUNCTION"]),
  ("COMMA", ["COLUMN", "FUNCTION"]),
  ("FROM", ["TABLE"]),
  ("TABLE", ["WHERE", "JOIN", "GROUP BY", "ORDER BY", "LIMIT", "END"]),
  ("JOIN", ["TABLE"]),
  ("ON", ["COLUMN"]),
  ("WHERE", ["COLUMN", "FUNCTION"]),
  ("CONDITION_COLUMN", ["OPERATOR"]),
  ("OPERATOR", ["VALUE", "COLUMN"]),
  ("VALUE", ["AND", "OR", "GROUP BY", "ORDER BY", "LIMIT", "END"]),
  ("AND", ["COLUMN"]),
  ("OR", ["COLUMN"]),
  ("GROUP BY", ["COLUMN"]),
  ("GROUP_COLUMN", ["COLUMN", "ORDER BY", "LIMIT", "END", "COMMA"]),
  ("ORDER BY", ["COLUMN"]),
  ("ORDER_COLUMN", ["ASC", "DESC", "COLUMN", "LIMIT", "END", "COMMA"]),
  ("ASC", ["COLUMN", "LIMIT", "END", "COMMA"]),
  ("DESC", ["COLUMN", "LIMIT", "END", "COMMA"]),
  ("LIMIT", ["NUMBER"]),
  ("NUMBER", ["END"])]

/-- `this.blockCategories` of the legacy `block-builder.js` constructor. -/
def blockCategories : List (String × String) := [
  ("SELECT", "SELECT"),
  ("DISTINCT", "DISTINCT"),
  ("FROM", "FROM"),
  ("WHERE", "WHERE"),
  ("JOIN", "JOIN"),
  ("ON", "ON"),
  ("GROUP BY", "GROUP BY"),
  ("ORDER BY", "ORDER BY"),
  ("LIMIT", "LIMIT"),
  ("AND", "AND"),
  ("OR", "OR"),
  ("ASC", "ASC"),
  ("DESC", "DESC"),
  ("=", "OPERATOR"),
  ("!=", "OPERATOR"),
  (">", "OPERATOR"),
  ("<", "OPERATOR"),
  (">=", "OPERATOR"),
  ("<=", "OPERATOR"),
  ("LIKE", "OPERATOR"),
  ("IN", "OPERATOR"),
  ("COUNT()", "FUNCTION"),
  ("SUM()", "FUNCTION"),
  ("AVG()", "FUNCTION"),
  ("MIN()", "FUNCTION"),
  ("MAX()", "FUNCTION"),
  ("employees", "TABLE"),
  ("departments", "TABLE"),
  ("*", "COLUMN"),
  ("id", "COLUMN"),
  ("name", "COLUMN"),
  ("department", "COLUMN"),
  ("salary", "COLUMN"),
  ("hire_date", "COLUMN"),
  ("location", "COLUMN"),
  ("number", "VALUE"),
  ("text", "VALUE")]

/-- The raw map access `this.blockCategories[type]` of the legacy class:
`none` models JavaScript `undefined`. -/
def categoryOf (t : String) : Option String :=
  (blockCategories.find? (fun p => p.1 == t)).map Prod.snd

/-- The inline keyword list of the legacy `findLastKeyword`. -/
def keywords : List String :=
  ["SELECT", "FROM", "WHERE", "JOIN", "ON", "GROUP BY", "ORDER BY", "LIMIT", "AND", "OR"]

/-- Legacy `findLastKeyword` — backward loop over the array. -/
def findLastKeyword (blocks : List Block) : Option String :=
  (blocks.reverse.find? (fun b => keywords.contains b.type)).map Block.type

/-- Legacy `getLastBlockCategory` (block-builder.js lines 244-272). -/
def getLastBlockCategory (blocks : List Block) : String :=
  match blocks.getLast? with
  | none => "START"
  | some lastBlock =>
    let category := (categoryOf lastBlock.type).getD "UNKNOWN"
    if category == "COLUMN" then
      let lastKeyword := findLastKeyword blocks.dropLast
      if lastKeyword == some "WHERE" || lastKeyword == some "AND" || lastKeyword == some "OR" then
        "CONDITION_COLUMN"
      else if lastKeyword == some "GROUP BY" then "GROUP_COLUMN"
      else if lastKeyword == some "ORDER BY" then "ORDER_COLUMN"
      else category
    else if category == "VALUE" then "VALUE"
    else category

/-- Legacy `canConnect` (block-builder.js lines 284-304): two separate
early-return membership checks, then the comma special case. -/
def canConnect (blocks : List Block) (newBlockType : String) : Bool :=
  let lastCategory := getLastBlockCategory blocks
  let newCategory := (categoryOf newBlockType).getD "UNKNOWN"
  let validNext := ((validConnections.find? (fun p => p.1 == lastCategory)).map Prod.snd).getD []
  if validNext.contains newCategory then true
  else if validNext.contains newBlockType then true
  else if newBlockType == "," || newCategory == "COMMA" then
    lastCategory == "COLUMN" || lastCategory == "FUNCTION" ||
      lastCategory == "GROUP_COLUMN" || lastCategory == "ORDER_COLUMN"
  else false

/-- Block-to-part translation inlined in the legacy `generateSQL` loop:
number and text inputs, the explicit comma, a FUNCTION-category block with
its `params`, and the raw type for everything else. -/
def blockPart (b : Block) : SQLPart :=
  if b.type == "number" then
    SQLPart.token (if b.value == "" then "?" else b.value)
  else if b.type == "text" then
    SQLPart.token (if b.value == "" then "'?'"
      else if !(b.value.startsWith "'") && !(b.value.startsWith "\"") then
        "'" ++ b.value ++ "'"
      else b.value)
  else if b.type == "," then
    SQLPart.comma
  else if categoryOf b.type == some "FUNCTION" then
    SQLPart.token
      (if b.params.length > 0 then
        String.mk (removeFirstParens b.type.data) ++ "(" ++ String.intercalate ", " b.params ++ ")"
      else String.mk (removeFirstParens b.type.data) ++ "()")
  else SQLPart.token b.type

/-- The inline `needsAutoComma` condition of the legacy `generateSQL` loop
(`index > 0 && … && prevBlock && … && prevBlock.type !== ','`). -/
def needsAutoCommaAt (index : Nat) (b : Block) (prevBlock : Option Block) : Bool :=
  decide (index > 0) &&
    (categoryOf b.type == some "COLUMN" || categoryOf b.type == some "FUNCTION") &&
    (match prevBlock with
     | none => false
     | some prev =>
       (categoryOf prev.type == some "COLUMN" || categoryOf prev.type == some "FUNCTION") &&
         prev.type != ",")

/-- The part-collecting `forEach` of the legacy `generateSQL`. -/
def collectLoop (index : Nat) (prevBlock : Option Block) : List Block → List SQLPart
  | [] => []
  | b :: rest =>
    (if needsAutoCommaAt index b prevBlock then [SQLPart.comma] else []) ++
      blockPart b :: collectLoop (index + 1) (some b) rest

/-- The inline `newLineKeywords` list of the legacy `formatSQL`. -/
def newLineKeywords : List String :=
  ["FROM", "WHERE", "JOIN", "ON", "GROUP BY", "ORDER BY", "LIMIT", "AND", "OR"]

/-- The `forEach` of the legacy `formatSQL`, threading previous part and index. -/
def formatLoop (prevPart : Option SQLPart) (index : Nat) : List SQLPart → String
  | [] => ""
  | SQLPart.comma :: rest => "," ++ formatLoop (some SQLPart.comma) (index + 1) rest
  | SQLPart.token s :: rest =>
    let needsNewLine := newLineKeywords.contains s
    let prevWasComma := prevPart == some SQLPart.comma
    let prevIsOpenParen := prevPart == some (SQLPart.token "(")
    let needsSpace := decide (index > 0) && !(s == "(" || s == ")") &&
      !prevIsOpenParen && !prevWasComma
    (if needsNewLine && decide (index > 0) then "\n" ++ s
     else if prevWasComma then " " ++ s
     else if needsSpace then " " ++ s
     else s) ++ formatLoop (some (SQLPart.token s)) (index + 1) rest

/-- Legacy `formatSQL` with its empty-output placeholder. -/
def formatSQL (parts : List SQLPart) : String :=
  let sql := formatLoop none 0 parts
  if sql == "" then "-- Your query will appear here" else sql

/-- Legacy `generateSQL` — the SQL text written to the output element. -/
def generateSQL (blocks : List Block) : String :=
  if blocks.length == 0 then "-- Your query will appear here"
  else formatSQL (collectLoop 0 none blocks)

/-- Legacy `isQueryComplete` (block-builder.js lines 732-744). -/
def isQueryComplete (blocks : List Block) : Bool :=
  if blocks.length == 0 then false
  else
    let hasSelect := blocks.any (fun b => b.type == "SELECT")
    let hasFrom := blocks.any (fun b => b.type == "FROM")
    let hasTable := blocks.any (fun b => categoryOf b.type == some "TABLE")
    let hasColumn := blocks.any (fun b =>
      categoryOf b.type == some "COLUMN" || categoryOf b.type == some "FUNCTION")
    hasSelect && hasFrom && hasTable && hasColumn

end SQLBlockBuilder

/-!
Shared helper lemmas about the grammar tables and lookups.
-/

/-- Whatever `validNext` returns is one of the lists stored in
`VALID_CONNECTIONS` (or empty). -/
theorem validNext_sub {c x : String}
    (h : (SQLGenerator.validNext c).contains x = true) :
    ∃ p ∈ VALID_CONNECTIONS, x ∈ p.2 := by
  unfold SQLGenerator.validNext at h
  cases hf : VALID_CONNECTIONS.find? (fun p => p.1 == c) with
  | none => rw [hf] at h; simp [List.contains] at h
  | some p =>
    rw [hf] at h
    refine ⟨p, List.mem_of_find?_eq_some hf, ?_⟩
    simpa using h

/-- No grammar-table entry lists the category `UNKNOWN`. -/
theorem unknown_not_in_connections : ∀ p ∈ VALID_CONNECTIONS, "UNKNOWN" ∉ p.2 := by
  decide

/-- No grammar-table entry lists the literal type string `,`. -/
theorem comma_lit_not_in_connections : ∀ p ∈ VALID_CONNECTIONS, "," ∉ p.2 := by
  decide

/-- No block type maps to the category `COMMA` in `BLOCK_CATEGORIES`. -/
theorem no_comma_category (t : String) : getBlockCategory t ≠ "COMMA" := by
  unfold getBlockCategory
  cases hf : BLOCK_CATEGORIES.find? (fun p => p.1 == t) with
  | none => decide
  | some p =>
    have hp := List.mem_of_find?_eq_some hf
    have : ∀ q ∈ BLOCK_CATEGORIES, q.2 ≠ "COMMA" := by decide
    exact this p hp

/-- The lookup result `validNext c` never contains `UNKNOWN`. -/
theorem validNext_not_unknown (c : String) :
    (SQLGenerator.validNext c).contains "UNKNOWN" = false := by
  cases h : (SQLGenerator.validNext c).contains "UNKNOWN" with
  | false => rfl
  | true =>
    obtain ⟨p, hp, hx⟩ := validNext_sub h
    exact absurd hx (unknown_not_in_connections p hp)

/-- The lookup result `validNext c` never contains the literal `,`. -/
theorem validNext_not_comma_lit (c : String) :
    (SQLGenerator.validNext c).contains "," = false := by
  cases h : (SQLGenerator.validNext c).contains "," with
  | false => rfl
  | true =>
    obtain ⟨p, hp, hx⟩ := validNext_sub h
    exact absurd hx (comma_lit_not_in_connections p hp)

/-!
Claim theorems.
-/

/-- C1, counterexample: the type `ALL` is absent from the category map (its
category resolves to `UNKNOWN`), yet after `SELECT` the grammar entry lists
the literal string `ALL`, so `canConnect` accepts it. -/
theorem C1_counterexample :
    getBlockCategory "ALL" = "UNKNOWN" ∧
      SQLGenerator.canConnect [⟨0, "SELECT", [], ""⟩] "ALL" = true := by
  constructor <;> rfl

/-- C1, amended: for a type absent from the category map that is not the
comma type and is not cited literally by any grammar-table entry, `canConnect`
returns false for every sequence of placed blocks. -/
theorem C1_unknown_fail_closed (t : String)
    (hcat : getBlockCategory t = "UNKNOWN")
    (hcomma : t ≠ ",")
    (hlit : ∀ p ∈ VALID_CONNECTIONS, t ∉ p.2) :
    ∀ blocks : List Block, SQLGenerator.canConnect blocks t = false := by
  intro blocks
  unfold SQLGenerator.canConnect
  rw [hcat]
  have h1 := validNext_not_unknown (SQLGenerator.getLastBlockCategory blocks)
  have h2 : (SQLGenerator.validNext (SQLGenerator.getLastBlockCategory blocks)).contains t
      = false := by
    cases h : (SQLGenerator.validNext (SQLGenerator.getLastBlockCategory blocks)).contains t with
    | false => rfl
    | true =>
      obtain ⟨p, hp, hx⟩ := validNext_sub h
      exact absurd hx (hlit p hp)
  have h3 : (t == ",") = false := beq_eq_false_iff_ne.mpr hcomma
  simp at h1 h2
  simp [h1, h2, h3]

/-- C1 witness: the unmapped type `MYSTERY` satisfies the amended
hypotheses and is rejected after `SELECT`. -/
theorem C1_unknown_fail_closed_witness :
    getBlockCategory "MYSTERY" = "UNKNOWN" ∧ "MYSTERY" ≠ "," ∧
      (∀ p ∈ VALID_CONNECTIONS, "MYSTERY" ∉ p.2) ∧
      SQLGenerator.canConnect [⟨0, "SELECT", [], ""⟩] "MYSTERY" = false :=
  ⟨by decide, by decide, by decide,
    C1_unknown_fail_closed "MYSTERY" (by decide) (by decide) (by decide)
      [⟨0, "SELECT", [], ""⟩]⟩

/-- C2: a comma candidate (the type `,`, or any type of category `COMMA` —
no such type exists in the map) is legal exactly when the contextual category
of the sequence is `COLUMN`, `FUNCTION`, `GROUP_COLUMN` or `ORDER_COLUMN`;
the comma special case, not the grammar entry, decides this. -/
theorem C2_comma_rule (blocks : List Block) (t : String)
    (h : t = "," ∨ getBlockCategory t = "COMMA") :
    (SQLGenerator.canConnect blocks t = true ↔
      SQLGenerator.getLastBlockCategory blocks ∈
        (["COLUMN", "FUNCTION", "GROUP_COLUMN", "ORDER_COLUMN"] : List String)) := by
  rcases h with h | h
  · subst h
    unfold SQLGenerator.canConnect
    have hcat : getBlockCategory "," = "UNKNOWN" := by rfl
    rw [hcat]
    have h1 := validNext_not_unknown (SQLGenerator.getLastBlockCategory blocks)
    have h2 := validNext_not_comma_lit (SQLGenerator.getLastBlockCategory blocks)
    simp at h1 h2
    simp [h1, h2]
  · exact absurd h (no_comma_category t)

/-- C2 witness: after `[SELECT, id]` the contextual category is `COLUMN`, so
a comma is legal there by the comma rule. -/
theorem C2_comma_rule_witness :
    ("," = "," ∨ getBlockCategory "," = "COMMA") ∧
      (SQLGenerator.canConnect [⟨0, "SELECT", [], ""⟩, ⟨1, "id", [], ""⟩] "," = true ↔
        SQLGenerator.getLastBlockCategory [⟨0, "SELECT", [], ""⟩, ⟨1, "id", [], ""⟩] ∈
          (["COLUMN", "FUNCTION", "GROUP_COLUMN", "ORDER_COLUMN"] : List String)) :=
  ⟨Or.inl rfl, C2_comma_rule [⟨0, "SELECT", [], ""⟩, ⟨1, "id", [], ""⟩] "," (Or.inl rfl)⟩

/-- C3: for a sequence ending in a base-category-COLUMN block, the contextual
category is decided by the nearest preceding SQL keyword found by the backward
scan: `CONDITION_COLUMN` for `WHERE`/`AND`/`OR`, `GROUP_COLUMN` for
`GROUP BY`, `ORDER_COLUMN` for `ORDER BY`, plain `COLUMN` otherwise
(including when no keyword precedes). -/
theorem C3_contextual_column (blocks : List Block) (b : Block)
    (hlast : blocks.getLast? = some b)
    (hcat : getBlockCategory b.type = "COLUMN") :
    (∀ kw, SQLGenerator.findLastKeyword blocks.dropLast = some kw →
      SQLGenerator.getLastBlockCategory blocks =
        (if kw = "WHERE" ∨ kw = "AND" ∨ kw = "OR" then "CONDITION_COLUMN"
         else if kw = "GROUP BY" then "GROUP_COLUMN"
         else if kw = "ORDER BY" then "ORDER_COLUMN"
         else "COLUMN")) ∧
    (SQLGenerator.findLastKeyword blocks.dropLast = none →
      SQLGenerator.getLastBlockCategory blocks = "COLUMN") := by
  constructor
  · intro kw hkw
    unfold SQLGenerator.getLastBlockCategory
    rw [hlast]
    simp only [hcat, hkw]
    by_cases h1 : kw = "WHERE"
    · subst h1; simp
    by_cases h2 : kw = "AND"
    · subst h2; simp
    by_cases h3 : kw = "OR"
    · subst h3; simp
    by_cases h4 : kw = "GROUP BY"
    · subst h4; simp
    by_cases h5 : kw = "ORDER BY"
    · subst h5; simp
    simp [h1, h2, h3, h4, h5]
  · intro hnone
    unfold SQLGenerator.getLastBlockCategory
    rw [hlast]
    simp only [hcat, hnone]
    simp

/-- C3 witness: in `[SELECT, id, FROM, employees, GROUP BY, department]` the
contextual category of the last block is `GROUP_COLUMN`. -/
theorem C3_contextual_column_witness :
    SQLGenerator.getLastBlockCategory
      [⟨0, "SELECT", [], ""⟩, ⟨1, "id", [], ""⟩, ⟨2, "FROM", [], ""⟩,
       ⟨3, "employees", [], ""⟩, ⟨4, "GROUP BY", [], ""⟩, ⟨5, "department", [], ""⟩]
      = "GROUP_COLUMN" := by
  have h := (C3_contextual_column
    [⟨0, "SELECT", [], ""⟩, ⟨1, "id", [], ""⟩, ⟨2, "FROM", [], ""⟩,
     ⟨3, "employees", [], ""⟩, ⟨4, "GROUP BY", [], ""⟩, ⟨5, "department", [], ""⟩]
    ⟨5, "department", [], ""⟩ (by rfl) (by rfl)).1 "GROUP BY" (by rfl)
  rw [h]
  decide

/-- C4: the code contradicts the claim — in a `LIMIT` context the grammar
entry `['NUMBER']` matches neither the number block's type `number` nor its
category `VALUE`, so `canConnect` rejects the number block; only the
nonexistent literal type `NUMBER` would be accepted (a case-mismatch bug that
makes `LIMIT` a dead-end state). -/
theorem C4_limit_number_dead_end :
    SQLGenerator.getLastBlockCategory
      [⟨0, "SELECT", [], ""⟩, ⟨1, "*", [], ""⟩, ⟨2, "FROM", [], ""⟩,
       ⟨3, "employees", [], ""⟩, ⟨4, "LIMIT", [], ""⟩] = "LIMIT" ∧
    getBlockCategory "number" = "VALUE" ∧
    SQLGenerator.canConnect
      [⟨0, "SELECT", [], ""⟩, ⟨1, "*", [], ""⟩, ⟨2, "FROM", [], ""⟩,
       ⟨3, "employees", [], ""⟩, ⟨4, "LIMIT", [], ""⟩] "number" = false ∧
    SQLGenerator.canConnect
      [⟨0, "SELECT", [], ""⟩, ⟨1, "*", [], ""⟩, ⟨2, "FROM", [], ""⟩,
       ⟨3, "employees", [], ""⟩, ⟨4, "LIMIT", [], ""⟩] "NUMBER" = true :=
  ⟨rfl, rfl, rfl, rfl⟩

/-- C5: a bind request on a function block whose parameter slot is already
filled (the slot's `empty` class is absent exactly when the target block's
`params` is nonempty) changes nothing: the drop handler's guard fails and the
sequence, including the existing bound parameter, is left as it was. -/
theorem C5_duplicate_bind_rejected (blocks : List Block) (slotEmpty : Bool)
    (t : String) (pid : Nat) (b : Block)
    (_hfind : blocks.find? (fun x => x.id == pid) = some b)
    (hfilled : b.params ≠ [])
    (hslot : slotEmpty = b.params.isEmpty) :
    DragDropManager.handleParamSlotDrop blocks slotEmpty t pid = blocks := by
  have hempty : b.params.isEmpty = false := by
    cases hp : b.params with
    | nil => exact absurd hp hfilled
    | cons x xs => rfl
  unfold DragDropManager.handleParamSlotDrop
  rw [hslot, hempty]
  simp

/-- C5 witness: a second bind of `name` onto the `COUNT()` block already
holding `id` leaves the sequence unchanged. -/
theorem C5_duplicate_bind_rejected_witness :
    (([⟨0, "COUNT()", ["id"], ""⟩] : List Block).find? (fun x => x.id == 0)
        = some ⟨0, "COUNT()", ["id"], ""⟩) ∧
    (["id"] : List String) ≠ [] ∧
    DragDropManager.handleParamSlotDrop [⟨0, "COUNT()", ["id"], ""⟩] false "name" 0
      = [⟨0, "COUNT()", ["id"], ""⟩] :=
  ⟨by decide, by decide,
    C5_duplicate_bind_rejected [⟨0, "COUNT()", ["id"], ""⟩] false "name" 0
      ⟨0, "COUNT()", ["id"], ""⟩ (by decide) (by decide) (by decide)⟩

/-- C6: the renderer auto-inserts a comma between adjacent COLUMN/FUNCTION
blocks when the earlier one is not itself a comma block; the comma marker is
emitted glued to the previous token and the following token gets exactly one
leading space; `[SELECT, id, name]` renders as `SELECT id, name`. -/
theorem C6_auto_comma :
    (∀ cur prev : Block,
      (getBlockCategory cur.type = "COLUMN" ∨ getBlockCategory cur.type = "FUNCTION") →
      (getBlockCategory prev.type = "COLUMN" ∨ getBlockCategory prev.type = "FUNCTION") →
      prev.type ≠ "," →
      SQLGenerator.needsAutoComma cur (some prev) = true) ∧
    (∀ prevPart i, SQLGenerator.formatPart SQLPart.comma prevPart i = ",") ∧
    (∀ s i, NEW_LINE_KEYWORDS.contains s = false →
      SQLGenerator.formatPart (SQLPart.token s) (some SQLPart.comma) i = " " ++ s) ∧
    SQLGenerator.generate
      [⟨0, "SELECT", [], ""⟩, ⟨1, "id", [], ""⟩, ⟨2, "name", [], ""⟩] = "SELECT id, name" := by
  refine ⟨?_, ?_, ?_, ?_⟩
  · intro cur prev hcur hprev hne
    unfold SQLGenerator.needsAutoComma
    rcases hcur with h | h <;> rcases hprev with h' | h' <;> simp [h, h', hne]
  · intro prevPart i
    rfl
  · intro s i hs
    unfold SQLGenerator.formatPart
    simp at hs
    simp [hs]
  · rfl

/-- C6 witness: the auto-comma condition fires for `name` following `id`. -/
theorem C6_auto_comma_witness :
    SQLGenerator.needsAutoComma ⟨2, "name", [], ""⟩ (some ⟨1, "id", [], ""⟩) = true :=
  C6_auto_comma.1 ⟨2, "name", [], ""⟩ ⟨1, "id", [], ""⟩
    (Or.inl (by decide)) (Or.inl (by decide)) (by decide)

/-- C7: a FUNCTION-category block renders as the block type with its trailing
`()` stripped, followed by parentheses holding the joined bound parameters
(empty parentheses when none is bound); with `id` bound to `COUNT()`, the
sequence `[SELECT, COUNT(), FROM, employees]` renders as
`SELECT COUNT(id)\nFROM employees`. -/
theorem C7_function_render :
    (∀ b : Block, isFunction b.type = true →
      SQLGenerator.processBlock b =
        SQLPart.token (extractFunctionName b.type ++
          (if b.params.length > 0 then "(" ++ String.intercalate ", " b.params ++ ")"
           else "()"))) ∧
    SQLGenerator.generate
      [⟨0, "SELECT", [], ""⟩, ⟨1, "COUNT()", ["id"], ""⟩, ⟨2, "FROM", [], ""⟩,
       ⟨3, "employees", [], ""⟩] = "SELECT COUNT(id)\nFROM employees" ∧
    extractFunctionName "COUNT()" = "COUNT" := by
  refine ⟨?_, rfl, rfl⟩
  intro b hf
  have hcat : getBlockCategory b.type = "FUNCTION" := by
    unfold isFunction at hf
    exact eq_of_beq hf
  have h1 : (b.type == "number") = false := by
    cases hb : b.type == "number" with
    | false => rfl
    | true => rw [eq_of_beq hb] at hcat; exact absurd hcat (by decide)
  have h2 : (b.type == "text") = false := by
    cases hb : b.type == "text" with
    | false => rfl
    | true => rw [eq_of_beq hb] at hcat; exact absurd hcat (by decide)
  have h3 : (b.type == ",") = false := by
    cases hb : b.type == "," with
    | false => rfl
    | true => rw [eq_of_beq hb] at hcat; exact absurd hcat (by decide)
  unfold SQLGenerator.processBlock SQLGenerator.processFunctionBlock
  rw [h1, h2, h3, hf]
  simp only [Bool.false_eq_true, if_false, if_true]
  cases hp : b.params with
  | nil => simp
  | cons x xs => simp [String.append_assoc]

/-- C7 witness: the COUNT block with bound parameter `id` becomes the token
`COUNT(id)`. -/
theorem C7_function_render_witness :
    SQLGenerator.processBlock ⟨1, "COUNT()", ["id"], ""⟩ = SQLPart.token "COUNT(id)" := by
  have h := C7_function_render.1 ⟨1, "COUNT()", ["id"], ""⟩ (by decide)
  rw [h]
  decide

/-- C8: a sequence is complete exactly when it holds a `SELECT` block, a
`FROM` block, a TABLE-category block and a COLUMN- or FUNCTION-category
block, in any order; `[SELECT, *, FROM, employees]` is complete while
`[SELECT, *]` is not. -/
theorem C8_completeness :
    (∀ blocks : List Block,
      SQLGenerator.isQueryComplete blocks = true ↔
        ((∃ b ∈ blocks, b.type = "SELECT") ∧ (∃ b ∈ blocks, b.type = "FROM") ∧
         (∃ b ∈ blocks, getBlockCategory b.type = "TABLE") ∧
         (∃ b ∈ blocks, getBlockCategory b.type = "COLUMN" ∨
            getBlockCategory b.type = "FUNCTION"))) ∧
    SQLGenerator.isQueryComplete
      [⟨0, "SELECT", [], ""⟩, ⟨1, "*", [], ""⟩, ⟨2, "FROM", [], ""⟩,
       ⟨3, "employees", [], ""⟩] = true ∧
    SQLGenerator.isQueryComplete [⟨0, "SELECT", [], ""⟩, ⟨1, "*", [], ""⟩] = false := by
  refine ⟨?_, rfl, rfl⟩
  intro blocks
  unfold SQLGenerator.isQueryComplete
  cases blocks with
  | nil => simp
  | cons b rest => simp [List.any_eq_true, and_assoc]

/-- C9: removing a block whose id first occurs at position `k` truncates the
sequence to exactly the `k` blocks strictly before it, each left unchanged. -/
theorem C9_remove_truncates (pre : List Block) (b : Block) (post : List Block)
    (hfresh : ∀ x ∈ pre, x.id ≠ b.id) :
    CanvasManager.removeBlockAndAfter (pre ++ b :: post) b.id = pre ∧
    (CanvasManager.removeBlockAndAfter (pre ++ b :: post) b.id).length = pre.length := by
  have hidx : ∀ (p : List Block) (i : Nat), (∀ x ∈ p, x.id ≠ b.id) →
      List.findIdx? (fun x => x.id == b.id) (p ++ b :: post) i = some (p.length + i) := by
    intro p
    induction p with
    | nil =>
      intro i _
      simp [List.findIdx?_cons]
    | cons a as ih =>
      intro i hp
      have ha : (a.id == b.id) = false :=
        beq_eq_false_iff_ne.mpr (hp a (List.mem_cons_self a as))
      have := ih (i + 1) (fun x hx => hp x (List.mem_cons_of_mem a hx))
      simp only [List.cons_append, List.findIdx?_cons, ha, Bool.false_eq_true, if_false, this]
      congr 1
      simp only [List.length_cons]
      omega
  have hmain : CanvasManager.removeBlockAndAfter (pre ++ b :: post) b.id = pre := by
    unfold CanvasManager.removeBlockAndAfter
    rw [hidx pre 0 hfresh]
    simp [List.take_left]
  exact ⟨hmain, by rw [hmain]⟩

/-- C9 witness: removing the `FROM` block (id 2, position 2) from a
four-block sequence leaves exactly the first two blocks. -/
theorem C9_remove_truncates_witness :
    (∀ x ∈ ([⟨0, "SELECT", [], ""⟩, ⟨1, "*", [], ""⟩] : List Block), x.id ≠ 2) ∧
    CanvasManager.removeBlockAndAfter
      [⟨0, "SELECT", [], ""⟩, ⟨1, "*", [], ""⟩, ⟨2, "FROM", [], ""⟩,
       ⟨3, "employees", [], ""⟩] 2 = [⟨0, "SELECT", [], ""⟩, ⟨1, "*", [], ""⟩] :=
  ⟨by decide,
    (C9_remove_truncates [⟨0, "SELECT", [], ""⟩, ⟨1, "*", [], ""⟩]
      ⟨2, "FROM", [], ""⟩ [⟨3, "employees", [], ""⟩] (by decide)).1⟩

/-!
Helper lemmas for the legacy/modular equivalence (the two classes keep
byte-identical copies of the tables; the lookups differ only in how the
JavaScript `undefined` fallback is written).
-/

/-- The legacy `blockCategories[t] || 'UNKNOWN'` agrees with the modular
`getBlockCategory`. -/
theorem categoryOf_getD (t : String) :
    (SQLBlockBuilder.categoryOf t).getD "UNKNOWN" = getBlockCategory t := by
  unfold SQLBlockBuilder.categoryOf getBlockCategory
  have h : SQLBlockBuilder.blockCategories = BLOCK_CATEGORIES := rfl
  rw [h]
  cases BLOCK_CATEGORIES.find? (fun p => p.1 == t) <;> rfl

/-- Comparing the raw legacy lookup against `some c` agrees with comparing
the modular category against `c`, whenever `c` is not the fallback. -/
theorem categoryOf_beq {c : String} (hc : ¬ "UNKNOWN" = c) (t : String) :
    (SQLBlockBuilder.categoryOf t == some c) = (getBlockCategory t == c) := by
  unfold SQLBlockBuilder.categoryOf getBlockCategory
  have h : SQLBlockBuilder.blockCategories = BLOCK_CATEGORIES := rfl
  rw [h]
  have hu : ("UNKNOWN" == c) = false := beq_eq_false_iff_ne.mpr hc
  cases BLOCK_CATEGORIES.find? (fun p => p.1 == t) with
  | none => simp [hu]
  | some p => simp

/-- Specialisation of `categoryOf_beq` to `COLUMN`. -/
theorem categoryOf_beq_column (t : String) :
    (SQLBlockBuilder.categoryOf t == some "COLUMN") = (getBlockCategory t == "COLUMN") :=
  categoryOf_beq (by decide) t

/-- Specialisation of `categoryOf_beq` to `FUNCTION`. -/
theorem categoryOf_beq_function (t : String) :
    (SQLBlockBuilder.categoryOf t == some "FUNCTION") = (getBlockCategory t == "FUNCTION") :=
  categoryOf_beq (by decide) t

/-- Specialisation of `categoryOf_beq` to `TABLE`. -/
theorem categoryOf_beq_table (t : String) :
    (SQLBlockBuilder.categoryOf t == some "TABLE") = (getBlockCategory t == "TABLE") :=
  categoryOf_beq (by decide) t

/-- The legacy inline keyword scan is the modular `findLastKeyword`. -/
theorem legacy_findLastKeyword (blocks : List Block) :
    SQLBlockBuilder.findLastKeyword blocks = SQLGenerator.findLastKeyword blocks := rfl

/-- The legacy contextual-category computation agrees with the modular one. -/
theorem legacy_getLastBlockCategory (blocks : List Block) :
    SQLBlockBuilder.getLastBlockCategory blocks = SQLGenerator.getLastBlockCategory blocks := by
  unfold SQLBlockBuilder.getLastBlockCategory SQLGenerator.getLastBlockCategory
  cases blocks.getLast? with
  | none => rfl
  | some b => simp only [categoryOf_getD, legacy_findLastKeyword]

/-- The legacy `validConnections[c] || []` lookup is the modular `validNext`. -/
theorem legacy_validNext (c : String) :
    ((SQLBlockBuilder.validConnections.find? (fun p => p.1 == c)).map Prod.snd).getD []
      = SQLGenerator.validNext c := by
  unfold SQLGenerator.validNext
  have h : SQLBlockBuilder.validConnections = VALID_CONNECTIONS := rfl
  rw [h]
  cases VALID_CONNECTIONS.find? (fun p => p.1 == c) <;> rfl

/-- The legacy legality check agrees with the modular `canConnect`. -/
theorem legacy_canConnect (blocks : List Block) (t : String) :
    SQLBlockBuilder.canConnect blocks t = SQLGenerator.canConnect blocks t := by
  unfold SQLBlockBuilder.canConnect SQLGenerator.canConnect
  simp only [legacy_getLastBlockCategory, categoryOf_getD, legacy_validNext]
  cases h1 : (SQLGenerator.validNext
      (SQLGenerator.getLastBlockCategory blocks)).contains (getBlockCategory t) <;>
    cases h2 : (SQLGenerator.validNext
      (SQLGenerator.getLastBlockCategory blocks)).contains t <;>
    simp [h1, h2, List.contains_cons, Bool.or_assoc, Bool.beq_eq_decide_eq]

/-- The legacy inline block-to-part translation is the modular `processBlock`. -/
theorem legacy_blockPart (b : Block) :
    SQLBlockBuilder.blockPart b = SQLGenerator.processBlock b := by
  unfold SQLBlockBuilder.blockPart SQLGenerator.processBlock
  simp only [SQLGenerator.processNumberBlock, SQLGenerator.processTextBlock,
    SQLGenerator.processFunctionBlock, extractFunctionName, isFunction, categoryOf_beq_function]

/-- At positive index the legacy inline auto-comma condition agrees with the
modular `needsAutoComma`. -/
theorem legacy_needsAutoComma (i : Nat) (b p : Block) :
    SQLBlockBuilder.needsAutoCommaAt (i + 1) b (some p) =
      SQLGenerator.needsAutoComma b (some p) := by
  unfold SQLBlockBuilder.needsAutoCommaAt SQLGenerator.needsAutoComma
  simp only [categoryOf_beq_column, categoryOf_beq_function]
  simp [Bool.and_assoc]

/-- The legacy part-collecting loop body agrees with `collectPartsAux` from
index 1 on. -/
theorem legacy_collectLoop (blocks : List Block) :
    ∀ (i : Nat) (p : Block),
      SQLBlockBuilder.collectLoop (i + 1) (some p) blocks =
        SQLGenerator.collectPartsAux (some p) blocks := by
  induction blocks with
  | nil => intro i p; rfl
  | cons b rest ih =>
    intro i p
    unfold SQLBlockBuilder.collectLoop SQLGenerator.collectPartsAux
    rw [legacy_needsAutoComma, legacy_blockPart, ih]

/-- The whole legacy part-collecting loop agrees with `collectParts`. -/
theorem legacy_collect (blocks : List Block) :
    SQLBlockBuilder.collectLoop 0 none blocks = SQLGenerator.collectParts blocks := by
  unfold SQLGenerator.collectParts
  cases blocks with
  | nil => rfl
  | cons b rest =>
    unfold SQLBlockBuilder.collectLoop SQLGenerator.collectPartsAux
    rw [legacy_blockPart, legacy_collectLoop]
    have h0 : SQLBlockBuilder.needsAutoCommaAt 0 b none = false := rfl
    have h1 : SQLGenerator.needsAutoComma b none = false := rfl
    rw [h0, h1]

/-- The legacy formatting loop agrees with `formatSQLAux`. -/
theorem legacy_formatLoop (parts : List SQLPart) :
    ∀ (prev : Option SQLPart) (i : Nat),
      SQLBlockBuilder.formatLoop prev i parts = SQLGenerator.formatSQLAux prev i parts := by
  induction parts with
  | nil => intro prev i; rfl
  | cons p rest ih =>
    intro prev i
    cases p with
    | comma =>
      unfold SQLBlockBuilder.formatLoop SQLGenerator.formatSQLAux
      rw [ih]
      rfl
    | token s =>
      unfold SQLBlockBuilder.formatLoop SQLGenerator.formatSQLAux SQLGenerator.formatPart
      rw [ih]
      rfl

/-- The legacy `formatSQL` agrees with the modular `formatSQL`. -/
theorem legacy_formatSQL (parts : List SQLPart) :
    SQLBlockBuilder.formatSQL parts = SQLGenerator.formatSQL parts := by
  unfold SQLBlockBuilder.formatSQL SQLGenerator.formatSQL
  rw [legacy_formatLoop]

/-- The legacy `generateSQL` text agrees with the modular `generate`. -/
theorem legacy_generateSQL (blocks : List Block) :
    SQLBlockBuilder.generateSQL blocks = SQLGenerator.generate blocks := by
  unfold SQLBlockBuilder.generateSQL SQLGenerator.generate
  rw [legacy_collect, legacy_formatSQL]

/-- The legacy completeness check agrees with the modular one. -/
theorem legacy_isQueryComplete (blocks : List Block) :
    SQLBlockBuilder.isQueryComplete blocks = SQLGenerator.isQueryComplete blocks := by
  unfold SQLBlockBuilder.isQueryComplete SQLGenerator.isQueryComplete
  simp only [categoryOf_beq_table, categoryOf_beq_column, categoryOf_beq_function]

/-- C10: the legacy monolithic `SQLBlockBuilder` and the modular
`SQLGenerator` backed by the shared config tables agree on the contextual
category, the legality check, the generated SQL text, and the completeness
check, for every sequence of placed blocks and every candidate type. -/
theorem C10_legacy_modular_equivalence (blocks : List Block) (t : String) :
    SQLBlockBuilder.getLastBlockCategory blocks = SQLGenerator.getLastBlockCategory blocks ∧
    SQLBlockBuilder.canConnect blocks t = SQLGenerator.canConnect blocks t ∧
    SQLBlockBuilder.generateSQL blocks = SQLGenerator.generate blocks ∧
    SQLBlockBuilder.isQueryComplete blocks = SQLGenerator.isQueryComplete blocks :=
  ⟨legacy_getLastBlockCategory blocks, legacy_canConnect blocks t,
   legacy_generateSQL blocks, legacy_isQueryComplete blocks⟩

end QueryQuest
